import Mathlib

/-!
Verification development for the ai-document-summarizer repository.

Shallow embedding conventions:
* JavaScript strings are modelled as `List Char` (`Str` below); `"lit".data`
  denotes the character list of a literal.
* External services (the mammoth DOCX converter, the Gemini model client,
  `JSON.parse`, the Firestore document store) are parameters of the embedded
  route handlers: the routes are functions of those oracles, so every theorem
  quantifies over their behaviour.
* JavaScript numbers reaching `Math.round` are modelled as rationals;
  `Math.round x` is `⌊x + 1/2⌋` (JS rounds half toward positive infinity).
-/

/-- JS strings as character lists. -/
abbrev Str := List Char

/-- Whitespace as matched by the regex `\s` (ASCII portion). -/
def jsIsWs (c : Char) : Bool :=
  c == ' ' || c == '\t' || c == '\n' || c == '\r' || c == '\x0b' || c == '\x0c'

/-- `String.prototype.trim`: strip leading and trailing whitespace. -/
def jsTrim (s : Str) : Str :=
  ((s.dropWhile jsIsWs).reverse.dropWhile jsIsWs).reverse

mutual

/-- `s.split(/\s+/)`: accumulate the current field; a whitespace character ends
the field and a maximal whitespace run is one separator. -/
def jsSplitWsGo : Str → Str → List Str
  | [], acc => [acc.reverse]
  | c :: rest, acc =>
    if jsIsWs c then acc.reverse :: jsSplitWsSkip rest
    else jsSplitWsGo rest (c :: acc)

/-- Inside a whitespace run: a trailing run yields a final empty field, as in
JS `"a ".split(/\s+/) = ["a", ""]`. -/
def jsSplitWsSkip : Str → List Str
  | [] => [[]]
  | c :: rest =>
    if jsIsWs c then jsSplitWsSkip rest
    else jsSplitWsGo rest [c]

end

/-- `s.split(/\s+/)` of the source. -/
def jsSplitWs (s : Str) : List Str := jsSplitWsGo s []

/-- `s.split(/\s+/).filter(word => word.length > 0).length` — the word count
used by both extraction paths and the upload route. -/
def countWords (s : Str) : Nat :=
  ((jsSplitWs s).filter (fun w => decide (w.length > 0))).length

/-- `s.split(/\s+/).length` — the naive count used by the summarize route. -/
def naiveWordCount (s : Str) : Nat := (jsSplitWs s).length

/-- The 100,000-character cap applied before the truncation marker. -/
def textCap : Nat := 100000

/-- The truncation marker `'...'`. -/
def dots : Str := "...".data

/-- Media type `text/plain`. -/
def plainMime : Str := "text/plain".data

/-- Media type of DOCX files. -/
def docxMime : Str :=
  "application/vnd.openxmlformats-officedocument.wordprocessingml.document".data

/-- A browser `File`: name, declared media type, byte size, and the text the
file decodes to (for `text/plain` this is what `file.text()` /
`buffer.toString('utf-8')` return; for DOCX it is the buffer fed to mammoth). -/
structure FileData where
  name : Str
  mediaType : Str
  size : Nat
  content : Str
deriving DecidableEq

/-- `FileExtractionResult` of src/lib/fileExtractor.ts (the optional
`pageCount` is never produced by the functions under study). -/
structure ExtractionResult where
  text : Str
  wordCount : Nat
  fileType : Str
  fileName : Str
  fileSize : Nat
deriving DecidableEq

/-- `extractTextFromFile` of src/lib/fileExtractor.ts.  Thrown `Error`s become
`Except.error` carrying the message. -/
def extractTextFromFile (file : FileData) : Except Str ExtractionResult :=
  if file.mediaType = docxMime then
    .error "DOCX processing requires server-side extraction".data
  else if file.mediaType = plainMime then
    let text := file.content
    if jsTrim text = [] then
      .error "No text could be extracted from the file".data
    else
      let text := if text.length > textCap then text.take textCap ++ dots else text
      .ok ⟨text, countWords text, file.mediaType, file.name, file.size⟩
  else
    .error "Unsupported file type".data

/-- The inline client-side extraction of `handleFileSelect` in
src/components/summarizer/DocumentSummarizer.tsx (the early-return branch for
`text/plain` files); `none` models the branch throwing / falling through to
server-side processing.  Note the word count is taken before truncation. -/
def handleFileSelectExtract (file : FileData) : Option ExtractionResult :=
  if file.mediaType = plainMime then
    let text := file.content
    if jsTrim text = [] then none
    else
      some ⟨if text.length > textCap then text.take textCap ++ dots else text,
            countWords text, file.mediaType, file.name, file.size⟩
  else none

/-- JSON values occurring in upload-route response bodies. -/
inductive JVal where
  | s (v : Str)
  | n (v : Nat)
  | b (v : Bool)
deriving DecidableEq

/-- An HTTP response whose JSON body is the ordered field list of the object
literal in the source. -/
structure HttpResp where
  status : Nat
  body : List (String × JVal)
deriving DecidableEq

/-- The server-side part of `POST /api/upload` (after the pre-extracted-text
short-circuit).  `mammothExtract` models `mammoth.extractRawText`; `.error`
models the library throwing. -/
def uploadServerSide (mammothExtract : Str → Except Unit Str)
    (file : Option FileData) : HttpResp :=
  match file with
  | none => ⟨400, [("error", .s "No file uploaded".data)]⟩
  | some f =>
    if ¬ (f.mediaType = docxMime ∨ f.mediaType = plainMime) then
      ⟨400, [("error",
        .s "Invalid file type. Please upload DOCX or TXT files for server-side processing.".data)]⟩
    else if f.size > 10 * 1024 * 1024 then
      ⟨400, [("error", .s "File too large".data)]⟩
    else
      match (if f.mediaType = docxMime then mammothExtract f.content
             else .ok f.content) with
      | .error _ => ⟨500, [("error", .s "Failed to extract text from file".data)]⟩
      | .ok text =>
        if jsTrim text = [] then
          ⟨400, [("error", .s "No text could be extracted from the file".data)]⟩
        else
          let text := if text.length > textCap then text.take textCap ++ dots else text
          ⟨200, [("success", .b true), ("text", .s text),
                 ("filename", .s f.name), ("fileSize", .n f.size),
                 ("wordCount", .n (countWords text))]⟩

/-- `POST /api/upload` of the source: if the form carries a truthy
`extractedText` it short-circuits with hard-coded metadata, otherwise the
server-side extraction runs. -/
def uploadPOST (mammothExtract : Str → Except Unit Str)
    (file : Option FileData) (extractedText : Option Str) : HttpResp :=
  match extractedText with
  | some t =>
    if t ≠ [] then
      ⟨200, [("text", .s t), ("wordCount", .n (countWords t)),
             ("fileType", .s plainMime), ("fileName", .s "document.txt".data),
             ("fileSize", .n 0)]⟩
    else uploadServerSide mammothExtract file
  | none => uploadServerSide mammothExtract file

/-- The highlights object; also the shape `JSON.parse` must deliver for the
parsed value to be usable downstream. -/
structure Highlights where
  keywords : List Str
  names : List Str
  dates : List Str
deriving DecidableEq

/-- `let highlights = { keywords: [], names: [], dates: [] }` of the source. -/
def defaultHighlights : Highlights := ⟨[], [], []⟩

/-- Responses of `POST /api/summarize`: an error status with message, or the
200 body `{success, summary, highlights, originalWordCount, summaryWordCount,
compressionRatio}`. -/
inductive SummarizeResp where
  | err (status : Nat) (msg : Str)
  | ok (summary : Str) (highlights : Highlights)
      (originalWordCount summaryWordCount : Nat) (compressionRatio : Int)
deriving DecidableEq

/-- JS `Math.round`: round half toward positive infinity, i.e. the floor of
`q + 1/2` (written with the executable `Rat.floor`). -/
def jsRound (q : ℚ) : Int := Rat.floor (q + 1/2)

/-- `Math.round((1 - summaryWords / originalWords) * 100)` of the source,
as a function of the two word counts the route computes. -/
def computeCompression (originalWC summaryWC : Nat) : Int :=
  jsRound ((1 - (summaryWC : ℚ) / (originalWC : ℚ)) * 100)

/-- JS `customLength || 200`: `undefined` and `0` are falsy. -/
def jsOrNum (x : Option Int) (d : Int) : Int :=
  match x with
  | none => d
  | some v => if v = 0 then d else v

/-- The `switch (summaryType)` prompt templates of the summarize route,
before the tone adjustment. -/
def basePrompt (summaryType : Option Str) (customLength : Option Int)
    (text : Str) : Str :=
  if summaryType = some "short".data then
    "Please provide a concise summary of the following text in 1-2 paragraphs. Focus on the main points and key information:\n\n".data ++ text
  else if summaryType = some "bullet".data then
    "Please summarize the following text as bullet points. Extract the key information and present it in a clear, organized list:\n\n".data ++ text
  else if summaryType = some "custom".data then
    "Please summarize the following text in approximately ".data
      ++ (toString (jsOrNum customLength 200)).data
      ++ " words. Maintain the essential information while being concise:\n\n".data
      ++ text
  else
    "Please provide a comprehensive summary of the following text, highlighting the main points and key information:\n\n".data ++ text

/-- The `toneInstructions` lookup table (`undefined` for other keys). -/
def toneInstruction (t : Str) : Option Str :=
  if t = "professional".data then
    some "Use a professional and formal tone.".data
  else if t = "casual".data then
    some "Use a casual and conversational tone.".data
  else if t = "academic".data then
    some "Use an academic and scholarly tone with precise language.".data
  else none

/-- The prompt handed to `model.generateContent`: the template prompt with the
tone instruction prepended when `tone && tone !== 'neutral'` (a lookup miss
interpolates JS `undefined`). -/
def fullPrompt (summaryType : Option Str) (customLength : Option Int)
    (tone : Option Str) (text : Str) : Str :=
  let prompt := basePrompt summaryType customLength text
  match tone with
  | none => prompt
  | some t =>
    if t = [] ∨ t = "neutral".data then prompt
    else
      match toneInstruction t with
      | some ins => ins ++ ' ' :: prompt
      | none => "undefined ".data ++ prompt

/-- The second prompt, asking for the highlights JSON. -/
def highlightPromptFor (text : Str) : Str :=
  "From the following text, extract important keywords, names of people/organizations, and dates. Present them as a JSON object with three arrays: \"keywords\", \"names\", and \"dates\":\n\n".data ++ text

/-- The character `{` (code 123). -/
def braceOpen : Char := Char.ofNat 123

/-- The character `}` (code 125). -/
def braceClose : Char := Char.ofNat 125

/-- Suffix starting at the first `braceOpen`, if any. -/
def dropToBrace : Str → Option Str
  | [] => none
  | c :: rest => if c = braceOpen then some (c :: rest) else dropToBrace rest

/-- Suffix starting at the first `braceClose`, if any. -/
def dropToClose : Str → Option Str
  | [] => none
  | c :: rest => if c = braceClose then some (c :: rest) else dropToClose rest

/-- `highlightText.match(/\x7b[\s\S]*\x7d/)`: the leftmost-greedy match runs
from the first opening brace to the last closing brace after it. -/
def jsMatchBraces (s : Str) : Option Str :=
  match dropToBrace s with
  | none => none
  | some cs =>
    match dropToClose cs.tail.reverse with
    | none => none
    | some revTail => some (braceOpen :: revTail.reverse)

/-- `POST /api/summarize` of the source.  `apiKeySet` is the truthiness of
`process.env.GOOGLE_AI_API_KEY`; `genContent` models
`model.generateContent(...).response.text()` (`.error` = the call throwing,
caught by the outer handler); `parseHighlights` models `JSON.parse` on the
matched substring (`none` = parse throwing, caught by the inner handler). -/
def summarizePOST (apiKeySet : Bool)
    (genContent : Str → Except Unit Str)
    (parseHighlights : Str → Option Highlights)
    (text : Option Str) (summaryType : Option Str)
    (customLength : Option Int) (tone : Option Str) : SummarizeResp :=
  match text with
  | none => .err 400 "No text provided for summarization".data
  | some t =>
    if jsTrim t = [] then .err 400 "No text provided for summarization".data
    else if ¬ apiKeySet then .err 500 "Gemini API key not configured".data
    else
      match genContent (fullPrompt summaryType customLength tone t) with
      | .error _ =>
        .err 500 "Failed to generate summary. Please check your API key and try again.".data
      | .ok summary =>
        match genContent (highlightPromptFor t) with
        | .error _ =>
          .err 500 "Failed to generate summary. Please check your API key and try again.".data
        | .ok highlightText =>
          let highlights :=
            match jsMatchBraces highlightText with
            | none => defaultHighlights
            | some m => (parseHighlights m).getD defaultHighlights
          .ok summary highlights (naiveWordCount t) (naiveWordCount summary)
            (computeCompression (naiveWordCount t) (naiveWordCount summary))

/-- A history record as cached by `HistoryDashboard` (fields not involved in
deletion are elided into the two shown). -/
structure HistoryItem where
  id : Str
  fileName : Str
  summary : Str
deriving DecidableEq

/-- The state `deleteItem` acts on: the user's persisted Firestore documents
and the component's `historyItems` / `selectedItem` state. -/
structure DashState where
  store : List HistoryItem
  historyItems : List HistoryItem
  selectedItem : Option HistoryItem
deriving DecidableEq

/-- Firestore `deleteDoc(doc(db, 'summaries', itemId))`: the external store
drops the document with that id. -/
def deleteDocById (store : List HistoryItem) (itemId : Str) : List HistoryItem :=
  store.filter (fun it => decide (it.id ≠ itemId))

/-- `deleteItem` of `HistoryDashboard` in src/components/auth/LoginForm.tsx
(success path): delete from the store, filter the cached list, clear the
selection when its id matches. -/
def deleteItem (st : DashState) (itemId : Str) : DashState :=
  { store := deleteDocById st.store itemId,
    historyItems := st.historyItems.filter (fun it => decide (it.id ≠ itemId)),
    selectedItem :=
      match st.selectedItem with
      | some it => if it.id = itemId then none else some it
      | none => none }

/-- `s` starts with `pat`. -/
def chStarts : Str → Str → Bool
  | _, [] => true
  | [], _ :: _ => false
  | c :: cs, p :: ps => if c = p then chStarts cs ps else false

/-- `s` contains `pat` as a contiguous substring. -/
def chContains : Str → Str → Bool
  | [], pat => chStarts [] pat
  | c :: rest, pat => chStarts (c :: rest) pat || chContains rest pat

/-- A text of `n` single-letter words separated by single spaces. -/
def mkWords (n : Nat) : Str := List.intercalate [' '] (List.replicate n ['a'])

/-- Concrete small plain-text file used by witnesses. -/
def fSmall : FileData := ⟨"a.txt".data, plainMime, 8, "hi there".data⟩

/-- Concrete over-cap plain-text file used by witnesses. -/
def fBig : FileData := ⟨"big.txt".data, plainMime, 0, List.replicate (textCap + 1) 'a'⟩

/-- Concrete model oracle used by witnesses where the result is irrelevant. -/
def mamNone : Str → Except Unit Str := fun _ => .error ()

/-- Concrete model oracle for the C4 witness: the highlight prompt for the
text `hi` gets a brace-free reply, every other prompt gets a summary. -/
def genW : Str → Except Unit Str := fun p =>
  if p = highlightPromptFor "hi".data then .ok "no json here".data
  else .ok "sum".data

/-- Concrete `JSON.parse` oracle that always throws. -/
def pjW : Str → Option Highlights := fun _ => none

/-- Concrete cached history items for the C9 witness. -/
def itemA : HistoryItem := ⟨"a".data, "a.txt".data, "first summary".data⟩

/-- Second concrete history item, not deleted by the C9 witness. -/
def itemB : HistoryItem := ⟨"b".data, "b.txt".data, "second summary".data⟩

/-- Concrete dashboard state for the C9 witness, with `itemA` selected. -/
def st0 : DashState := ⟨[itemA, itemB], [itemA, itemB], some itemA⟩

theorem chStarts_append (p c : Str) : chStarts (p ++ c) p = true := by
  induction p with
  | nil => cases c <;> simp [chStarts]
  | cons x xs ih => simp [chStarts, ih]

theorem chContains_cons (c : Char) (rest pat : Str) :
    chContains (c :: rest) pat = (chStarts (c :: rest) pat || chContains rest pat) := rfl

theorem chContains_here (p c : Str) : chContains (p ++ c) p = true := by
  cases p with
  | nil => cases c <;> simp [chContains, chStarts]
  | cons y ys =>
    show chContains (y :: (ys ++ c)) (y :: ys) = true
    rw [chContains_cons]
    have h : chStarts (y :: (ys ++ c)) (y :: ys) = true := by
      simpa using chStarts_append (y :: ys) c
    rw [h, Bool.true_or]

theorem chContains_mono (a t p : Str) (h : chContains t p = true) :
    chContains (a ++ t) p = true := by
  induction a with
  | nil => simpa using h
  | cons x xs ih =>
    show chContains (x :: (xs ++ t)) p = true
    rw [chContains_cons, ih, Bool.or_true]

theorem chContains_mid (a p c : Str) : chContains (a ++ (p ++ c)) p = true :=
  chContains_mono a (p ++ c) p (chContains_here p c)

theorem dropWhile_ws_replicate_a (n : Nat) :
    (List.replicate n 'a').dropWhile jsIsWs = List.replicate n 'a' := by
  cases n with
  | zero => rfl
  | succ m =>
    rw [List.replicate_succ, List.dropWhile_cons]
    have h : jsIsWs 'a' = false := rfl
    simp [h]

theorem jsTrim_replicate_a (n : Nat) :
    jsTrim (List.replicate n 'a') = List.replicate n 'a' := by
  unfold jsTrim
  rw [dropWhile_ws_replicate_a, List.reverse_replicate, dropWhile_ws_replicate_a,
      List.reverse_replicate]

theorem extract_ok_le (f : FileData) (hm : f.mediaType = plainMime)
    (ht : jsTrim f.content ≠ []) (hl : f.content.length ≤ textCap) :
    extractTextFromFile f
      = .ok ⟨f.content, countWords f.content, f.mediaType, f.name, f.size⟩ := by
  have hnd : f.mediaType ≠ docxMime := by rw [hm]; decide
  have hpd : ¬ (plainMime = docxMime) := by decide
  have hnl : ¬ (f.content.length > textCap) := by omega
  simp [extractTextFromFile, hnd, hpd, hm, ht, hnl]

theorem extract_ok_gt (f : FileData) (hm : f.mediaType = plainMime)
    (ht : jsTrim f.content ≠ []) (hg : f.content.length > textCap) :
    extractTextFromFile f
      = .ok ⟨f.content.take textCap ++ dots,
             countWords (f.content.take textCap ++ dots),
             f.mediaType, f.name, f.size⟩ := by
  have hnd : f.mediaType ≠ docxMime := by rw [hm]; decide
  have hpd : ¬ (plainMime = docxMime) := by decide
  simp [extractTextFromFile, hnd, hpd, hm, ht, hg]

theorem handle_some_le (f : FileData) (hm : f.mediaType = plainMime)
    (ht : jsTrim f.content ≠ []) (hl : f.content.length ≤ textCap) :
    handleFileSelectExtract f
      = some ⟨f.content, countWords f.content, f.mediaType, f.name, f.size⟩ := by
  have hnl : ¬ (f.content.length > textCap) := by omega
  simp [handleFileSelectExtract, hm, ht, hnl]

theorem handle_some_gt (f : FileData) (hm : f.mediaType = plainMime)
    (ht : jsTrim f.content ≠ []) (hg : f.content.length > textCap) :
    handleFileSelectExtract f
      = some ⟨f.content.take textCap ++ dots, countWords f.content,
              f.mediaType, f.name, f.size⟩ := by
  simp [handleFileSelectExtract, hm, ht, hg]

theorem upload_none_eq_server (mam : Str → Except Unit Str) (file : Option FileData) :
    uploadPOST mam file none = uploadServerSide mam file := rfl

theorem upload_ok_le (mam : Str → Except Unit Str) (f : FileData)
    (hm : f.mediaType = plainMime) (ht : jsTrim f.content ≠ [])
    (hl : f.content.length ≤ textCap) (hs : f.size ≤ 10 * 1024 * 1024) :
    uploadPOST mam (some f) none
      = ⟨200, [("success", .b true), ("text", .s f.content),
               ("filename", .s f.name), ("fileSize", .n f.size),
               ("wordCount", .n (countWords f.content))]⟩ := by
  have hnd : f.mediaType ≠ docxMime := by rw [hm]; decide
  have hpd : ¬ (plainMime = docxMime) := by decide
  have hns : ¬ (f.size > 10 * 1024 * 1024) := by omega
  have hnl : ¬ (f.content.length > textCap) := by omega
  rw [upload_none_eq_server]
  simp [uploadServerSide, hm, hnd, hpd, ht, hns, hnl]

theorem upload_ok_gt (mam : Str → Except Unit Str) (f : FileData)
    (hm : f.mediaType = plainMime) (ht : jsTrim f.content ≠ [])
    (hg : f.content.length > textCap) (hs : f.size ≤ 10 * 1024 * 1024) :
    uploadPOST mam (some f) none
      = ⟨200, [("success", .b true), ("text", .s (f.content.take textCap ++ dots)),
               ("filename", .s f.name), ("fileSize", .n f.size),
               ("wordCount", .n (countWords (f.content.take textCap ++ dots)))]⟩ := by
  have hnd : f.mediaType ≠ docxMime := by rw [hm]; decide
  have hpd : ¬ (plainMime = docxMime) := by decide
  have hns : ¬ (f.size > 10 * 1024 * 1024) := by omega
  rw [upload_none_eq_server]
  simp [uploadServerSide, hm, hnd, hpd, ht, hns, hg]

/-- C1: on every plain-text extraction path (exported `extractTextFromFile`,
the inline `handleFileSelect` extraction, and the server side of
`POST /api/upload`), a decoded text of at most 100,000 characters is returned
verbatim with the filtered whitespace-token count as `wordCount`, and a longer
text is returned as exactly its first 100,000 characters followed by `...`. -/
theorem c1_plaintext_extraction :
    ∀ (f : FileData) (mam : Str → Except Unit Str),
      f.mediaType = plainMime → jsTrim f.content ≠ [] →
      ((f.content.length ≤ textCap →
          extractTextFromFile f
            = .ok ⟨f.content, countWords f.content, f.mediaType, f.name, f.size⟩
          ∧ handleFileSelectExtract f
            = some ⟨f.content, countWords f.content, f.mediaType, f.name, f.size⟩
          ∧ (f.size ≤ 10 * 1024 * 1024 →
              uploadPOST mam (some f) none
                = ⟨200, [("success", .b true), ("text", .s f.content),
                         ("filename", .s f.name), ("fileSize", .n f.size),
                         ("wordCount", .n (countWords f.content))]⟩))
        ∧ (f.content.length > textCap →
          extractTextFromFile f
            = .ok ⟨f.content.take textCap ++ dots,
                   countWords (f.content.take textCap ++ dots),
                   f.mediaType, f.name, f.size⟩
          ∧ handleFileSelectExtract f
            = some ⟨f.content.take textCap ++ dots, countWords f.content,
                    f.mediaType, f.name, f.size⟩
          ∧ (f.size ≤ 10 * 1024 * 1024 →
              uploadPOST mam (some f) none
                = ⟨200, [("success", .b true),
                         ("text", .s (f.content.take textCap ++ dots)),
                         ("filename", .s f.name), ("fileSize", .n f.size),
                         ("wordCount",
                          .n (countWords (f.content.take textCap ++ dots)))]⟩))) := by
  intro f mam hm ht
  refine ⟨fun hl => ⟨extract_ok_le f hm ht hl, handle_some_le f hm ht hl,
            fun hs => upload_ok_le mam f hm ht hl hs⟩,
          fun hg => ⟨extract_ok_gt f hm ht hg, handle_some_gt f hm ht hg,
            fun hs => upload_ok_gt mam f hm ht hg hs⟩⟩

/-- Witness for C1: the small file `hi there` exercises the verbatim path on
all three implementations, and the 100,001-character file exercises the
truncation path of the inline client extraction. -/
theorem c1_witness :
    extractTextFromFile fSmall
      = .ok ⟨fSmall.content, countWords fSmall.content, fSmall.mediaType,
             fSmall.name, fSmall.size⟩
    ∧ uploadPOST mamNone (some fSmall) none
      = ⟨200, [("success", .b true), ("text", .s fSmall.content),
               ("filename", .s fSmall.name), ("fileSize", .n fSmall.size),
               ("wordCount", .n (countWords fSmall.content))]⟩
    ∧ handleFileSelectExtract fBig
      = some ⟨fBig.content.take textCap ++ dots, countWords fBig.content,
              fBig.mediaType, fBig.name, fBig.size⟩ := by
  have hmS : fSmall.mediaType = plainMime := rfl
  have htS : jsTrim fSmall.content ≠ [] := by decide
  have hlS : fSmall.content.length ≤ textCap := by decide
  have hsS : fSmall.size ≤ 10 * 1024 * 1024 := by decide
  have hmB : fBig.mediaType = plainMime := rfl
  have hcB : fBig.content = List.replicate (textCap + 1) 'a' := rfl
  have htB : jsTrim fBig.content ≠ [] := by
    rw [hcB, jsTrim_replicate_a]
    intro h
    have := congrArg List.length h
    simp at this
  have hgB : fBig.content.length > textCap := by
    rw [hcB]
    simp
  exact ⟨((c1_plaintext_extraction fSmall mamNone hmS htS).1 hlS).1,
         ((c1_plaintext_extraction fSmall mamNone hmS htS).1 hlS).2.2 hsS,
         ((c1_plaintext_extraction fBig mamNone hmB htB).2 hgB).2.1⟩

/-- C10: for plain-text files whose decoded text is non-blank and within the
100,000-character cap, the exported `extractTextFromFile` and the inline
`handleFileSelect` extraction produce the identical extraction record. -/
theorem c10_client_paths_agree :
    ∀ (f : FileData) (r : ExtractionResult),
      f.mediaType = plainMime → jsTrim f.content ≠ [] →
      f.content.length ≤ textCap →
      (extractTextFromFile f = .ok r ↔ handleFileSelectExtract f = some r) := by
  intro f r hm ht hl
  rw [extract_ok_le f hm ht hl, handle_some_le f hm ht hl]
  constructor
  · intro h
    injection h with h
    rw [h]
  · intro h
    injection h with h
    rw [h]

/-- Witness for C10: both client-side extraction implementations map the file
`hi there` to the same record. -/
theorem c10_witness :
    handleFileSelectExtract fSmall
      = some ⟨"hi there".data, 2, plainMime, "a.txt".data, 8⟩ :=
  (c10_client_paths_agree fSmall ⟨"hi there".data, 2, plainMime, "a.txt".data, 8⟩
    rfl (by decide) (by decide)).mp rfl

/-- C8: a non-empty `extractedText` field makes `POST /api/upload`
short-circuit before any type or size validation, returning the text
unchanged, its recomputed filtered word count, the hard-coded type
`text/plain`, the hard-coded name `document.txt`, and size 0, regardless of
the file's actual metadata. -/
theorem c8_short_circuit :
    ∀ (mam : Str → Except Unit Str) (file : Option FileData) (t : Str),
      t ≠ [] →
      uploadPOST mam file (some t)
        = ⟨200, [("text", .s t), ("wordCount", .n (countWords t)),
                 ("fileType", .s plainMime), ("fileName", .s "document.txt".data),
                 ("fileSize", .n 0)]⟩ := by
  intro mam file t ht
  simp [uploadPOST, ht]

/-- Witness for C8: an oversized file of a disallowed type is ignored when the
form carries pre-extracted text. -/
theorem c8_witness :
    uploadPOST mamNone
      (some ⟨"x.pdf".data, "application/pdf".data, 99999999, "ignored".data⟩)
      (some "hello world".data)
      = ⟨200, [("text", .s "hello world".data),
               ("wordCount", .n (countWords "hello world".data)),
               ("fileType", .s plainMime), ("fileName", .s "document.txt".data),
               ("fileSize", .n 0)]⟩ :=
  c8_short_circuit mamNone
    (some ⟨"x.pdf".data, "application/pdf".data, 99999999, "ignored".data⟩)
    "hello world".data (by decide)

/-- C7 (amended): a 200 response of `POST /api/upload` has exactly the fields
`text, wordCount, fileType, fileName, fileSize` on the pre-extracted
short-circuit path, but on the server-side extraction path the success body
has exactly the fields `success, text, filename, fileSize, wordCount`. -/
theorem c7_upload_response_fields :
    (∀ (mam : Str → Except Unit Str) (file : Option FileData) (t : Str),
       t ≠ [] →
       (uploadPOST mam file (some t)).body.map Prod.fst
         = ["text", "wordCount", "fileType", "fileName", "fileSize"])
    ∧ (∀ (mam : Str → Except Unit Str) (file : Option FileData),
       (uploadServerSide mam file).status = 200 →
       (uploadServerSide mam file).body.map Prod.fst
         = ["success", "text", "filename", "fileSize", "wordCount"])
    ∧ (∀ (mam : Str → Except Unit Str) (file : Option FileData),
       uploadPOST mam file none = uploadServerSide mam file) := by
  refine ⟨fun mam file t ht => by simp [uploadPOST, ht], fun mam file h => ?_, fun _ _ => rfl⟩
  match file with
  | none => simp [uploadServerSide] at h
  | some f =>
    by_cases h1 : f.mediaType = docxMime ∨ f.mediaType = plainMime
    · by_cases h2 : f.size > 10 * 1024 * 1024
      · simp [uploadServerSide, h1, h2] at h
      · cases hE : (if f.mediaType = docxMime then mam f.content
                    else Except.ok f.content) with
        | error e => simp [uploadServerSide, h1, h2, hE] at h
        | ok text =>
          by_cases h3 : jsTrim text = []
          · simp [uploadServerSide, h1, h2, hE, h3] at h
          · simp [uploadServerSide, h1, h2, hE, h3]
    · simp [uploadServerSide, h1] at h

/-- Counterexample for C7 as frozen: a server-side extraction of the file
`hi there` succeeds with HTTP 200, yet its body fields are not
`text, wordCount, fileType, fileName, fileSize`. -/
theorem c7_counterexample :
    (uploadPOST mamNone (some fSmall) none).status = 200
    ∧ (uploadPOST mamNone (some fSmall) none).body.map Prod.fst
        ≠ ["text", "wordCount", "fileType", "fileName", "fileSize"] :=
  ⟨rfl, by decide⟩

/-- Witness for C7: both field lists, at concrete requests. -/
theorem c7_witness :
    (uploadPOST mamNone none (some "hi".data)).body.map Prod.fst
      = ["text", "wordCount", "fileType", "fileName", "fileSize"]
    ∧ (uploadServerSide mamNone (some fSmall)).body.map Prod.fst
      = ["success", "text", "filename", "fileSize", "wordCount"] :=
  ⟨c7_upload_response_fields.1 mamNone none "hi".data (by decide),
   c7_upload_response_fields.2.1 mamNone (some fSmall) rfl⟩

/-- C3: `POST /api/summarize` answers 400 when the text is absent or blank
after trimming, 500 when the AI credential is unset (for non-blank text), and
with non-blank text and the credential set it never produces either of those
two error responses. -/
theorem c3_summarize_errors :
    (∀ (ks : Bool) (gen : Str → Except Unit Str) (pj : Str → Option Highlights)
       (ty : Option Str) (cl : Option Int) (tone : Option Str) (t : Option Str),
       (t = none ∨ ∃ s, t = some s ∧ jsTrim s = []) →
       summarizePOST ks gen pj t ty cl tone
         = .err 400 "No text provided for summarization".data)
    ∧ (∀ (gen : Str → Except Unit Str) (pj : Str → Option Highlights)
       (ty : Option Str) (cl : Option Int) (tone : Option Str) (s : Str),
       jsTrim s ≠ [] →
       summarizePOST false gen pj (some s) ty cl tone
         = .err 500 "Gemini API key not configured".data)
    ∧ (∀ (gen : Str → Except Unit Str) (pj : Str → Option Highlights)
       (ty : Option Str) (cl : Option Int) (tone : Option Str) (s : Str),
       jsTrim s ≠ [] →
       summarizePOST true gen pj (some s) ty cl tone
         ≠ .err 400 "No text provided for summarization".data
       ∧ summarizePOST true gen pj (some s) ty cl tone
         ≠ .err 500 "Gemini API key not configured".data) := by
  refine ⟨fun ks gen pj ty cl tone t ha => ?_, fun gen pj ty cl tone s hs => ?_,
          fun gen pj ty cl tone s hs => ?_⟩
  · rcases ha with rfl | ⟨s, rfl, hs⟩
    · rfl
    · simp [summarizePOST, hs]
  · simp [summarizePOST, hs]
  · have hmsg1 :
        "Failed to generate summary. Please check your API key and try again.".data
          ≠ "No text provided for summarization".data := by decide
    have hmsg2 :
        "Failed to generate summary. Please check your API key and try again.".data
          ≠ "Gemini API key not configured".data := by decide
    simp only [summarizePOST, hs, if_neg, ite_false, Bool.not_true, ite_eq_right_iff]
    cases gen (fullPrompt ty cl tone s) with
    | error e => simp [hs, hmsg1, hmsg2]
    | ok summary =>
      cases gen (highlightPromptFor s) with
      | error e => simp [hs, hmsg1, hmsg2]
      | ok hl => simp [hs]

/-- Witness for C3: the three branches at concrete requests. -/
theorem c3_witness :
    summarizePOST true genW pjW none none none none
      = .err 400 "No text provided for summarization".data
    ∧ summarizePOST false genW pjW (some "hi".data) none none none
      = .err 500 "Gemini API key not configured".data
    ∧ summarizePOST true genW pjW (some "hi".data) none none none
      ≠ .err 400 "No text provided for summarization".data :=
  ⟨c3_summarize_errors.1 true genW pjW none none none none (Or.inl rfl),
   c3_summarize_errors.2.1 genW pjW none none none "hi".data (by decide),
   (c3_summarize_errors.2.2 genW pjW none none none "hi".data (by decide)).1⟩

/-- C4: when both model calls return but the highlight response has no
brace-delimited substring, or the matched substring fails to parse, the
summarize route still succeeds with the generated summary and the default
empty highlights. -/
theorem c4_highlights_fallback :
    ∀ (gen : Str → Except Unit Str) (pj : Str → Option Highlights)
      (ty : Option Str) (cl : Option Int) (tone : Option Str) (s sum hl : Str),
      jsTrim s ≠ [] →
      gen (fullPrompt ty cl tone s) = .ok sum →
      gen (highlightPromptFor s) = .ok hl →
      (jsMatchBraces hl = none ∨ ∃ m, jsMatchBraces hl = some m ∧ pj m = none) →
      summarizePOST true gen pj (some s) ty cl tone
        = .ok sum defaultHighlights (naiveWordCount s) (naiveWordCount sum)
            (computeCompression (naiveWordCount s) (naiveWordCount sum)) := by
  intro gen pj ty cl tone s sum hl hs h1 h2 hm
  rcases hm with hm | ⟨m, hm, hpj⟩
  · simp [summarizePOST, hs, h1, h2, hm]
  · simp [summarizePOST, hs, h1, h2, hm, hpj]

set_option maxRecDepth 8192 in
/-- Witness for C4: a brace-free highlight reply for the text `hi` yields the
summary with empty highlights. -/
theorem c4_witness :
    summarizePOST true genW pjW (some "hi".data) none none none
      = .ok "sum".data defaultHighlights (naiveWordCount "hi".data)
          (naiveWordCount "sum".data)
          (computeCompression (naiveWordCount "hi".data) (naiveWordCount "sum".data)) :=
  c4_highlights_fallback genW pjW none none none "hi".data "sum".data
    "no json here".data (by decide) rfl rfl (Or.inl rfl)

theorem fullPrompt_eq_pre (ty : Option Str) (cl : Option Int) (tone : Option Str)
    (text : Str) :
    ∃ pre, fullPrompt ty cl tone text = pre ++ basePrompt ty cl text := by
  cases tone with
  | none => exact ⟨[], rfl⟩
  | some t =>
    by_cases h : t = [] ∨ t = "neutral".data
    · refine ⟨[], ?_⟩
      simp only [fullPrompt]
      rw [if_pos h]
      simp
    · cases hins : toneInstruction t with
      | some ins =>
        refine ⟨ins ++ [' '], ?_⟩
        simp only [fullPrompt]
        rw [if_neg h, hins]
        simp
      | none =>
        refine ⟨"undefined ".data, ?_⟩
        simp only [fullPrompt]
        rw [if_neg h, hins]

theorem basePrompt_custom_split (cl : Option Int) (text : Str) :
    basePrompt (some "custom".data) cl text
      = "Please summarize the following text in ".data
        ++ (("approximately ".data ++ (toString (jsOrNum cl 200)).data ++ " words".data)
          ++ (". Maintain the essential information while being concise:\n\n".data ++ text)) := by
  have h1 : ¬ ((some "custom".data : Option Str) = some "short".data) := by decide
  have h2 : ¬ ((some "custom".data : Option Str) = some "bullet".data) := by decide
  unfold basePrompt
  rw [if_neg h1, if_neg h2, if_pos rfl]
  have hsplit1 : "Please summarize the following text in approximately ".data
      = "Please summarize the following text in ".data ++ "approximately ".data := by decide
  have hsplit2 :
      " words. Maintain the essential information while being concise:\n\n".data
        = " words".data
          ++ ". Maintain the essential information while being concise:\n\n".data := by decide
  rw [hsplit1, hsplit2]
  simp [List.append_assoc]

theorem custom_prompt_contains (cl : Option Int) (tone : Option Str) (text : Str) :
    chContains (fullPrompt (some "custom".data) cl tone text)
      ("approximately ".data ++ (toString (jsOrNum cl 200)).data ++ " words".data)
      = true := by
  obtain ⟨pre, hpre⟩ := fullPrompt_eq_pre (some "custom".data) cl tone text
  rw [hpre, basePrompt_custom_split]
  have base := chContains_mid
    (pre ++ "Please summarize the following text in ".data)
    ("approximately ".data ++ (toString (jsOrNum cl 200)).data ++ " words".data)
    (". Maintain the essential information while being concise:\n\n".data ++ text)
  simpa [List.append_assoc] using base

/-- C5 (amended): with `summaryType = custom` and `customLength` unset — or
set to the falsy value 0 — the prompt requests approximately 200 words; with
`customLength` set to any nonzero N it requests approximately N words. -/
theorem c5_custom_length_prompt :
    ∀ (cl : Option Int) (tone : Option Str) (text : Str),
      ((cl = none ∨ cl = some 0) →
        chContains (fullPrompt (some "custom".data) cl tone text)
          "approximately 200 words".data = true)
      ∧ (∀ n : Int, cl = some n → n ≠ 0 →
        chContains (fullPrompt (some "custom".data) cl tone text)
          ("approximately ".data ++ (toString n).data ++ " words".data) = true) := by
  intro cl tone text
  constructor
  · intro h0
    have hnum : jsOrNum cl 200 = 200 := by rcases h0 with rfl | rfl <;> rfl
    have h := custom_prompt_contains cl tone text
    rw [hnum] at h
    have hpat : ("approximately ".data ++ (toString (200 : Int)).data ++ " words".data)
        = "approximately 200 words".data := by decide
    rwa [hpat] at h
  · intro n hcl hn
    subst hcl
    have hnum : jsOrNum (some n) 200 = n := by simp [jsOrNum, hn]
    have h := custom_prompt_contains (some n) tone text
    rwa [hnum] at h

/-- Counterexample for C5 as frozen: with `customLength` set to 0 the prompt
does not request approximately 0 words — it requests approximately 200. -/
theorem c5_counterexample :
    chContains (fullPrompt (some "custom".data) (some 0) (some "neutral".data) "hi".data)
        "approximately 0 words".data = false
    ∧ chContains (fullPrompt (some "custom".data) (some 0) (some "neutral".data) "hi".data)
        "approximately 200 words".data = true :=
  ⟨by decide, by decide⟩

/-- Witness for C5: unset and nonzero custom lengths at a concrete request. -/
theorem c5_witness :
    chContains (fullPrompt (some "custom".data) none none "hi".data)
      "approximately 200 words".data = true
    ∧ chContains (fullPrompt (some "custom".data) (some 500) none "hi".data)
      ("approximately ".data ++ (toString (500 : Int)).data ++ " words".data) = true :=
  ⟨(c5_custom_length_prompt none none "hi".data).1 (Or.inl rfl),
   (c5_custom_length_prompt (some 500) none "hi".data).2 500 rfl (by decide)⟩

/-- C6: tone `neutral` leaves the prompt unchanged, and each of the three
other valid tones prepends exactly its fixed instruction sentence (plus a
space) to an otherwise unchanged prompt. -/
theorem c6_tone_instructions :
    ∀ (ty : Option Str) (cl : Option Int) (text : Str),
      fullPrompt ty cl (some "neutral".data) text = basePrompt ty cl text
      ∧ fullPrompt ty cl (some "professional".data) text
          = "Use a professional and formal tone.".data ++ ' ' :: basePrompt ty cl text
      ∧ fullPrompt ty cl (some "casual".data) text
          = "Use a casual and conversational tone.".data ++ ' ' :: basePrompt ty cl text
      ∧ fullPrompt ty cl (some "academic".data) text
          = "Use an academic and scholarly tone with precise language.".data
              ++ ' ' :: basePrompt ty cl text :=
  fun _ _ _ => ⟨rfl, rfl, rfl, rfl⟩

theorem jsRound_eq_floor (q : ℚ) : jsRound q = Int.floor (q + 1/2) := by
  unfold jsRound
  rw [Rat.floor_def', ← Rat.floor_def]

/-- C2 (amended): the compressionRatio of every 200 summarize response equals
`Math.round((1 − summaryWordCount/originalWordCount) × 100)` of the word
counts in the same response; 1000 original words and 100 summary words give
90; and the value is negative whenever `200·summaryWordCount >
201·originalWordCount` (a summary merely longer than the input can round up
to 0). -/
theorem c2_compression_formula :
    (∀ (ks : Bool) (gen : Str → Except Unit Str) (pj : Str → Option Highlights)
       (t ty : Option Str) (cl : Option Int) (tone : Option Str)
       (sum : Str) (hl : Highlights) (o w : Nat) (c : Int),
       summarizePOST ks gen pj t ty cl tone = .ok sum hl o w c →
       c = jsRound ((1 - (w : ℚ) / (o : ℚ)) * 100))
    ∧ computeCompression 1000 100 = 90
    ∧ (∀ o w : Nat, 0 < o → 200 * w > 201 * o → computeCompression o w < 0) := by
  refine ⟨?_, by norm_num [computeCompression, jsRound, Rat.floor_def'], ?_⟩
  · intro ks gen pj t ty cl tone sum hl o w c h
    cases t with
    | none => simp [summarizePOST] at h
    | some s =>
      by_cases h1 : jsTrim s = []
      · simp [summarizePOST, h1] at h
      · cases ks with
        | false => simp [summarizePOST, h1] at h
        | true =>
          cases hg1 : gen (fullPrompt ty cl tone s) with
          | error e => simp [summarizePOST, h1, hg1] at h
          | ok sum' =>
            cases hg2 : gen (highlightPromptFor s) with
            | error e => simp [summarizePOST, h1, hg1, hg2] at h
            | ok hlt =>
              simp only [summarizePOST, h1, hg1, hg2, if_neg, ite_false,
                Bool.not_true, not_false_eq_true, ite_true, SummarizeResp.ok.injEq]
                at h
              obtain ⟨rfl, rfl, rfl, rfl, rfl⟩ := h
              rfl
  · intro o w ho hgt
    have hoQ : (0 : ℚ) < (o : ℚ) := by exact_mod_cast ho
    have hne : (o : ℚ) ≠ 0 := ne_of_gt hoQ
    have hgtQ : (201 : ℚ) * o < 200 * w := by exact_mod_cast hgt
    have key : (1 - (w : ℚ) / (o : ℚ)) * 100 + 1/2 < 0 := by
      rw [show (1 - (w : ℚ) / (o : ℚ)) * 100 + 1/2
            = ((201 * o - 200 * w) / (2 * o) : ℚ) from by field_simp; ring]
      exact div_neg_of_neg_of_pos (by linarith) (by linarith)
    have hlt : ((1 - (w : ℚ) / (o : ℚ)) * 100 + 1/2) < ((0 : Int) : ℚ) := by
      push_cast
      linarith
    unfold computeCompression
    rw [jsRound_eq_floor]
    exact Int.floor_lt.mpr hlt

set_option maxRecDepth 100000 in
/-- Counterexample for C2 as frozen: a 200-word input summarized into 201
words has a strictly longer summary, yet the response's compressionRatio is
0, not negative (JS `Math.round(-0.5)` is `-0`). -/
theorem c2_counterexample :
    summarizePOST true (fun _ => .ok (mkWords 201)) pjW
        (some (mkWords 200)) none none none
      = .ok (mkWords 201) defaultHighlights 200 201 0
    ∧ 201 > 200 ∧ ¬ ((0 : Int) < 0) := by
  refine ⟨?_, by decide, by decide⟩
  have htrim : jsTrim (mkWords 200) ≠ [] := by decide
  have hbr : jsMatchBraces (mkWords 201) = none := by decide
  have h200 : naiveWordCount (mkWords 200) = 200 := by decide
  have h201 : naiveWordCount (mkWords 201) = 201 := by decide
  have hcomp : computeCompression 200 201 = 0 := by
    norm_num [computeCompression, jsRound, Rat.floor_def']
  simp [summarizePOST, htrim, hbr, h200, h201, hcomp]

set_option maxRecDepth 8192 in
/-- Witness for C2: the 1000/100 example, a concrete negative ratio, and the
formula at a concrete 200 response. -/
theorem c2_witness :
    computeCompression 1000 100 = 90
    ∧ computeCompression 1 2 < 0
    ∧ computeCompression (naiveWordCount "hi".data) (naiveWordCount "sum".data)
        = jsRound ((1 - ((naiveWordCount "sum".data : Nat) : ℚ)
            / ((naiveWordCount "hi".data : Nat) : ℚ)) * 100) := by
  refine ⟨c2_compression_formula.2.1,
    c2_compression_formula.2.2 1 2 (by decide) (by decide), ?_⟩
  refine c2_compression_formula.1 true genW pjW (some "hi".data) none none none
    "sum".data defaultHighlights _ _ _ ?_
  have htrim : jsTrim "hi".data ≠ [] := by decide
  have hg1 : genW (fullPrompt none none none "hi".data) = .ok "sum".data := rfl
  have hg2 : genW (highlightPromptFor "hi".data) = .ok "no json here".data := rfl
  have hbr : jsMatchBraces "no json here".data = none := rfl
  simp [summarizePOST, htrim, hg1, hg2, hbr]

/-- C9: `deleteItem` removes exactly the records with the deleted id from the
persisted store and the cached history list, and clears the selection
precisely when the selected record carried the deleted id. -/
theorem c9_delete_history :
    ∀ (st : DashState) (itemId : Str),
      (∀ it, it ∈ (deleteItem st itemId).store ↔ it ∈ st.store ∧ it.id ≠ itemId)
      ∧ (∀ it, it ∈ (deleteItem st itemId).historyItems
            ↔ it ∈ st.historyItems ∧ it.id ≠ itemId)
      ∧ (∀ it, st.selectedItem = some it → it.id = itemId →
            (deleteItem st itemId).selectedItem = none)
      ∧ ((∀ it, st.selectedItem = some it → it.id ≠ itemId) →
            (deleteItem st itemId).selectedItem = st.selectedItem) := by
  intro st itemId
  refine ⟨fun it => ?_, fun it => ?_, fun it hsel hid => ?_, fun hne => ?_⟩
  · simp [deleteItem, deleteDocById, List.mem_filter]
  · simp [deleteItem, List.mem_filter]
  · simp [deleteItem, hsel, hid]
  · cases hsel : st.selectedItem with
    | none => simp [deleteItem, hsel]
    | some it => simp [deleteItem, hsel, hne it hsel]

/-- Witness for C9: deleting the selected record `a` clears the selection and
keeps record `b` cached. -/
theorem c9_witness :
    (deleteItem st0 "a".data).selectedItem = none
    ∧ itemB ∈ (deleteItem st0 "a".data).historyItems :=
  ⟨(c9_delete_history st0 "a".data).2.2.1 itemA rfl rfl,
   ((c9_delete_history st0 "a".data).2.1 itemB).mpr ⟨by decide, by decide⟩⟩
